import Mathlib

/-!
Verification development for the Test/Panel Pricing & Branch Capability
Resolution Engine of the `logos` laboratory-management data layer.

The record types and their check constraints / unique indexes are embedded
from the SQLAlchemy model declarations under `src/app/models/` (principally
`laboratory/test_pricing_model.py`, `laboratory/test_availability_model.py`,
`testing/test_capability_model.py`, `laboratory/test_catalog_model.py`,
`laboratory/branch_model.py`).  The repository contains only these
declarative models; the resolution operations (`activeRuleFor`, `price`,
`resolve`, `quote`) are therefore modelled from the specification's
component design (§4.2–§4.5) over those record types.

Money (SQL `Numeric(10,2)`) is embedded as `ℚ`; timestamps as `Int`.
-/

namespace Logos

/-- Embeds `TestPrice` from `src/app/models/laboratory/test_pricing_model.py`
(columns relevant to pricing resolution; audit columns omitted). -/
structure TestPrice where
  id : Nat
  laboratory_id : Nat
  test_id : Option Nat
  panel_id : Option Nat
  price_type : String
  branch_id : Option Nat
  base_price : ℚ
  currency : String
  discount_percentage : ℚ
  final_price : ℚ
  urgent_price : Option ℚ
  effective_from : Int
  effective_to : Option Int
  is_active : Bool
deriving Repr, DecidableEq

/-- Embeds the SQL check constraint `check_test_or_panel`:
`(test_id IS NOT NULL AND panel_id IS NULL) OR (test_id IS NULL AND panel_id IS NOT NULL)`. -/
def check_test_or_panel (r : TestPrice) : Bool :=
  (r.test_id.isSome && r.panel_id.isNone) || (r.test_id.isNone && r.panel_id.isSome)

/-- Embeds the SQL check constraint `check_branch_price_consistency`:
`(price_type = 'standard' AND branch_id IS NULL) OR (price_type = 'branch_specific' AND branch_id IS NOT NULL)`. -/
def check_branch_price_consistency (r : TestPrice) : Bool :=
  (r.price_type == "standard" && r.branch_id.isNone) ||
  (r.price_type == "branch_specific" && r.branch_id.isSome)

/-- Models an INSERT into `test_prices` under the source's declared check
constraints: the database rejects any row violating `check_test_or_panel`
or `check_branch_price_consistency` (the two `CheckConstraint`s of the
table), so no operation can create a violating stored rule. -/
def insertPrice (ps : List TestPrice) (r : TestPrice) : Except String (List TestPrice) :=
  if !check_test_or_panel r then .error "check_test_or_panel"
  else if !check_branch_price_consistency r then .error "check_branch_price_consistency"
  else .ok (r :: ps)

/-- A price store every row of which satisfies the table's check
constraints — the invariant the database guarantees for `test_prices`. -/
def pricesWF (ps : List TestPrice) : Bool :=
  ps.all (fun r => check_test_or_panel r && check_branch_price_consistency r)

/-- Embeds `DiscountTier` from the pricing models: `discount_percentage` is a
non-nullable column with default 0, `fixed_discount_amount` is nullable. -/
structure DiscountTier where
  id : Nat
  laboratory_id : Nat
  name : String
  minimum_amount : ℚ
  discount_percentage : ℚ
  fixed_discount_amount : Option ℚ
  applies_to : String
  effective_from : Int
  effective_to : Option Int
  is_active : Bool
deriving Repr, DecidableEq

/-- Embeds `CorporateDiscount` from the pricing models: a single non-nullable
`discount_percentage` column (the schema has no fixed-amount column). -/
structure CorporateDiscount where
  id : Nat
  laboratory_id : Nat
  organization_name : String
  organization_code : String
  discount_percentage : ℚ
  applies_to_all_tests : Bool
  contract_start_date : Int
  contract_end_date : Option Int
  is_active : Bool
deriving Repr, DecidableEq

/-- Embeds `Branch` (`laboratory/branch_model.py`): tenant key, the
`sample_collection_only` posture flag and `is_active`. -/
structure Branch where
  id : Nat
  laboratory_id : Nat
  sample_collection_only : Bool
  is_active : Bool
deriving Repr, DecidableEq

/-- Embeds `Test` (`laboratory/test_catalog_model.py`): standard and urgent
turnaround times in hours, activity flag. -/
structure Test where
  id : Nat
  turnaround_time_hours : Nat
  urgent_turnaround_time_hours : Option Nat
  is_active : Bool
deriving Repr, DecidableEq

/-- Embeds `BranchTestCapability` (`testing/test_capability_model.py`):
whether a branch is technically equipped to perform a test, with an
optional branch-level TAT override. -/
structure BranchTestCapability where
  branch_id : Nat
  test_id : Nat
  can_perform : Bool
  turnaround_time_hours : Option Nat
  is_active : Bool
deriving Repr, DecidableEq

/-- Embeds `BranchTestAvailability` (`laboratory/test_availability_model.py`):
routing policy — referral target and additional TAT for referred tests. -/
structure BranchTestAvailability where
  branch_id : Nat
  test_id : Nat
  can_perform : Bool
  refer_to_branch_id : Option Nat
  additional_tat_hours : Nat
  is_active : Bool
deriving Repr, DecidableEq

/-- A price rule applies to a test or to a panel; lookups key on one of the
two (`test_id` / `panel_id` columns of `TestPrice`). -/
inductive ItemRef where
  | test (id : Nat)
  | panel (id : Nat)
deriving Repr, DecidableEq

/-- Error taxonomy of the engine (spec §7). -/
inductive PricingError where
  | NotFound
  | NoPriceDefined
  | AmbiguousPriceRule
  | InvalidDiscountConfiguration
  | InvalidReferral
  | UnresolvableRouting
deriving Repr, DecidableEq

instance {ε α : Type} [DecidableEq ε] [DecidableEq α] : DecidableEq (Except ε α) := fun a b =>
  match a, b with
  | .ok x, .ok y =>
    if h : x = y then .isTrue (by rw [h]) else .isFalse (by simp [h])
  | .error x, .error y =>
    if h : x = y then .isTrue (by rw [h]) else .isFalse (by simp [h])
  | .ok _, .error _ => .isFalse (by simp)
  | .error _, .ok _ => .isFalse (by simp)

/-- Modelled from the spec: "Active" means `effective_from <= at_time` and
(`effective_to` is null or `at_time < effective_to`) and `is_active = true`
(§4.3), over the `TestPrice` validity columns. -/
def priceActiveAt (r : TestPrice) (t : Int) : Bool :=
  r.is_active && decide (r.effective_from ≤ t) &&
    (match r.effective_to with
     | none => true
     | some e => decide (t < e))

/-- Whether a price rule row references the given item, via the `test_id` /
`panel_id` columns. -/
def matchesItem (r : TestPrice) (item : ItemRef) : Bool :=
  match item with
  | .test i => r.test_id == some i
  | .panel i => r.panel_id == some i

/-- Modelled from the spec: the key match of `activeRuleFor(tenant, item,
branch?, at_time)` (§4.3) — tenant filter, item match, scope match
(`standard` when no branch is given, `branch_specific` for that branch
otherwise), and temporal activity. -/
def ruleMatches (r : TestPrice) (lab : Nat) (item : ItemRef)
    (branch : Option Nat) (t : Int) : Bool :=
  r.laboratory_id == lab && matchesItem r item &&
  (match branch with
   | none => r.price_type == "standard" && r.branch_id == none
   | some b => r.price_type == "branch_specific" && r.branch_id == some b) &&
  priceActiveAt r t

/-- Modelled from the spec: `activeRuleFor(tenant, item, branch?, at_time) ->
PriceRule | None`, failing with `AmbiguousPriceRule` when more than one rule
matches the same key at the same instant (§4.3); the operation itself is
absent from the repository, which holds only the table declarations. -/
def activeRuleFor (ps : List TestPrice) (lab : Nat) (item : ItemRef)
    (branch : Option Nat) (t : Int) : Except PricingError (Option TestPrice) :=
  match ps.filter (fun r => ruleMatches r lab item branch t) with
  | [] => .ok none
  | [r] => .ok (some r)
  | _ :: _ :: _ => .error .AmbiguousPriceRule

/-- Modelled from the spec: base selection of `price()` step 1 (§4.4) —
most-specific wins: a `branch_specific` active rule for the branch, else the
`standard` active rule, else `NoPriceDefined` (an item must never be
silently free); the operation is absent from the repository. -/
def selectRule (ps : List TestPrice) (lab : Nat) (item : ItemRef)
    (branch : Nat) (t : Int) : Except PricingError TestPrice :=
  match activeRuleFor ps lab item (some branch) t with
  | .error e => .error e
  | .ok (some r) => .ok r
  | .ok none =>
    match activeRuleFor ps lab item none t with
    | .error e => .error e
    | .ok (some r) => .ok r
    | .ok none => .error .NoPriceDefined

/-- One entry of the ordered `applied_discounts` audit list of a
`PricedLine` (spec §4.4 step 6). -/
structure AppliedDiscount where
  kind : String
  value : ℚ
deriving Repr, DecidableEq

/-- Modelled from the spec: output of the Pricing Resolver (§4.4 step 6). -/
structure PricedLine where
  base_price : ℚ
  applied_discounts : List AppliedDiscount
  final_price : ℚ
  currency : String
deriving Repr, DecidableEq

/-- Round to 2 decimal places, half up (spec §4.4 step 5). -/
def round2 (q : ℚ) : ℚ := (⌊q * 100 + 1/2⌋ : ℚ) / 100

/-- Modelled from the spec: a tier qualifies when it belongs to the tenant,
is active for `at_time`, and its `minimum_amount` does not exceed the
cumulative spend context (§4.4 step 3), over the `DiscountTier` columns. -/
def tierQualifies (d : DiscountTier) (lab : Nat) (spend : ℚ) (t : Int) : Bool :=
  d.laboratory_id == lab && d.is_active && decide (d.effective_from ≤ t) &&
    (match d.effective_to with
     | none => true
     | some e => decide (t < e)) &&
    decide (d.minimum_amount ≤ spend)

/-- The comparison step of best-tier selection: keep the candidate with the
higher `minimum_amount` (first seen wins ties). -/
def betterTier (acc : Option DiscountTier) (d : DiscountTier) : Option DiscountTier :=
  match acc with
  | none => some d
  | some best => if best.minimum_amount < d.minimum_amount then some d else some best

/-- Modelled from the spec: select the qualifying tier with the highest
`minimum_amount` (best qualifying tier, not first match; §4.4 step 3). -/
def bestTier (ds : List DiscountTier) (lab : Nat) (spend : ℚ) (t : Int) :
    Option DiscountTier :=
  (ds.filter (fun d => tierQualifies d lab spend t)).foldl betterTier none

/-- Modelled from the spec: read-time validation of a tier — percentage and
fixed amount are mutually exclusive; a tier specifying both, or neither, is
rejected with `InvalidDiscountConfiguration` (§4.4 failure modes).  Over the
source schema, where `discount_percentage` is non-nullable with default 0,
"specifying" a percentage means a non-zero value. -/
def validateTier (d : DiscountTier) : Except PricingError DiscountTier :=
  if d.discount_percentage ≠ 0 ∧ d.fixed_discount_amount.isSome then
    .error .InvalidDiscountConfiguration
  else if d.discount_percentage = 0 ∧ d.fixed_discount_amount.isNone then
    .error .InvalidDiscountConfiguration
  else .ok d

/-- Modelled from the spec: `price()` step 3 — apply the best qualifying
volume tier (validated at read time) to the post-step-2 price; at most one
tier applies per line (§4.4). -/
def applyTier (ds : List DiscountTier) (lab : Nat) (spend : ℚ) (t : Int)
    (p : ℚ) : Except PricingError (ℚ × List AppliedDiscount) :=
  match bestTier ds lab spend t with
  | none => .ok (p, [])
  | some d =>
    match validateTier d with
    | .error e => .error e
    | .ok d =>
      match d.fixed_discount_amount with
      | some f => .ok (p - f, [⟨"volume_tier_fixed", f⟩])
      | none => .ok (p * ((100 - d.discount_percentage) / 100),
                     [⟨"volume_tier", d.discount_percentage⟩])

/-- Modelled from the spec: `corporateDiscountFor(tenant, org_code, at_time)`
(§4.3) — the tenant's active corporate discount for the organization code;
the `(laboratory_id, organization_code)` unique index of the source makes
the key unique, so the first match is taken. -/
def corporateDiscountFor (cs : List CorporateDiscount) (lab : Nat)
    (org : String) (t : Int) : Option CorporateDiscount :=
  (cs.filter (fun c =>
    c.laboratory_id == lab && c.organization_code == org && c.is_active &&
    decide (c.contract_start_date ≤ t) &&
    (match c.contract_end_date with
     | none => true
     | some e => decide (t < e)))).head?

/-- Modelled from the spec: `price()` step 4 — apply the corporate
percentage to the result of step 3 when an active corporate discount exists
for the supplied organization and `applies_to_all_tests` holds (§4.4). -/
def applyCorporate (cs : List CorporateDiscount) (lab : Nat)
    (org : Option String) (t : Int) (p : ℚ) : ℚ × List AppliedDiscount :=
  match org with
  | none => (p, [])
  | some o =>
    match corporateDiscountFor cs lab o t with
    | none => (p, [])
    | some c =>
      if c.applies_to_all_tests then
        (p * ((100 - c.discount_percentage) / 100), [⟨"corporate", c.discount_percentage⟩])
      else (p, [])

/-- Modelled from the spec: `price()` step 2 — the urgent price replaces the
rule's precomputed `final_price` outright when urgency is requested and the
rule carries one; otherwise the precomputed `final_price` (§4.4). -/
def baseAmount (r : TestPrice) (urgent : Bool) : ℚ :=
  if urgent then
    match r.urgent_price with
    | some u => u
    | none => r.final_price
  else r.final_price

/-- Modelled from the spec: `price(tenant, item, branch, urgent,
cumulative_spend_context, corporate_org?, at_time) -> PricedLine` (§4.4) —
base selection with branch precedence, urgent-price replacement (the rule's
precomputed `final_price` otherwise), best volume tier, corporate percentage
on the post-tier result, and a single final rounding; the operation is
absent from the repository. -/
def price (ps : List TestPrice) (ds : List DiscountTier)
    (cs : List CorporateDiscount) (lab : Nat) (item : ItemRef) (branch : Nat)
    (urgent : Bool) (spend : ℚ) (org : Option String) (t : Int) :
    Except PricingError PricedLine :=
  match selectRule ps lab item branch t with
  | .error e => .error e
  | .ok r =>
    let p0 : ℚ := baseAmount r urgent
    match applyTier ds lab spend t p0 with
    | .error e => .error e
    | .ok (p1, d1) =>
      let (p2, d2) := applyCorporate cs lab org t p1
      .ok { base_price := p0, applied_discounts := d1 ++ d2,
            final_price := round2 p2, currency := r.currency }

/-- Modelled from the spec: output of the Availability Resolver (§4.2). -/
structure RoutingDecision where
  performing_branch : Nat
  effective_TAT_hours : Nat
  was_referred : Bool
deriving Repr, DecidableEq

/-- Modelled from the spec: `isActiveBranch(tenant, branch_id)` of the
organizational directory (§6), over the `Branch` columns. -/
def isActiveBranch (bs : List Branch) (lab bid : Nat) : Bool :=
  bs.any (fun b => b.id == bid && b.laboratory_id == lab && b.is_active)

/-- The capability row for (branch, test); the source's unique index
`idx_branch_test` makes the key unique, so the first match is taken. -/
def capabilityFor (caps : List BranchTestCapability) (bid tid : Nat) :
    Option BranchTestCapability :=
  (caps.filter (fun c => c.branch_id == bid && c.test_id == tid)).head?

/-- The availability/referral row for (branch, test); the source's unique
index `idx_branch_test_unique` makes the key unique. -/
def availabilityFor (avs : List BranchTestAvailability) (bid tid : Nat) :
    Option BranchTestAvailability :=
  (avs.filter (fun a => a.branch_id == bid && a.test_id == tid)).head?

/-- Modelled from the spec: a branch cannot perform a test locally when a
capability row exists with `can_perform = false`, or no row exists and the
branch's posture is collection-only (`sample_collection_only`; §4.2). -/
def cannotPerformLocally (bs : List Branch) (caps : List BranchTestCapability)
    (bid tid : Nat) : Bool :=
  match capabilityFor caps bid tid with
  | some c => !c.can_perform
  | none =>
    match (bs.filter (fun b => b.id == bid)).head? with
    | some b => b.sample_collection_only
    | none => false

/-- Modelled from the spec: the test's standard TAT, or its urgent TAT when
requested and defined (§4.2), over the `Test` TAT columns. -/
def defaultTAT (test : Test) (urgent : Bool) : Nat :=
  if urgent then
    match test.urgent_turnaround_time_hours with
    | some u => u
    | none => test.turnaround_time_hours
  else test.turnaround_time_hours

/-- Modelled from the spec: `resolve(tenant, branch, test) ->
RoutingDecision` (§4.2) — local performance with optional branch-level TAT
override; otherwise single-hop referral via the availability row, adding
`additional_tat_hours` to the test's standard TAT; `InvalidReferral` when
the target is the referring branch itself or not an active branch of the
tenant; `UnresolvableRouting` when no target is set or the target is itself
incapable; the operation is absent from the repository. -/
def resolve (bs : List Branch) (caps : List BranchTestCapability)
    (avs : List BranchTestAvailability) (lab bid : Nat) (test : Test)
    (urgent : Bool) : Except PricingError RoutingDecision :=
  if cannotPerformLocally bs caps bid test.id then
    match availabilityFor avs bid test.id with
    | none => .error .UnresolvableRouting
    | some av =>
      match av.refer_to_branch_id with
      | none => .error .UnresolvableRouting
      | some tgt =>
        if tgt == bid then .error .InvalidReferral
        else if !isActiveBranch bs lab tgt then .error .InvalidReferral
        else if cannotPerformLocally bs caps tgt test.id then
          .error .UnresolvableRouting
        else
          .ok { performing_branch := tgt,
                effective_TAT_hours := test.turnaround_time_hours + av.additional_tat_hours,
                was_referred := true }
  else
    let tat :=
      match capabilityFor caps bid test.id with
      | some c =>
        match c.turnaround_time_hours with
        | some o => o
        | none => defaultTAT test urgent
      | none => defaultTAT test urgent
    .ok { performing_branch := bid, effective_TAT_hours := tat,
          was_referred := false }

/-- Association row of `TestPanelItem` (`laboratory/test_catalog_model.py`):
which tests constitute a panel. -/
structure TestPanelItem where
  panel_id : Nat
  test_id : Nat
  is_optional : Bool
deriving Repr, DecidableEq

/-- The read-consistent snapshot a `quote` invocation works over (spec §5):
all rule, capability and catalog rows. -/
structure Snapshot where
  prices : List TestPrice
  tiers : List DiscountTier
  corps : List CorporateDiscount
  branches : List Branch
  caps : List BranchTestCapability
  avails : List BranchTestAvailability
  tests : List Test
  panelItems : List TestPanelItem
deriving Repr

/-- Modelled from the spec: Catalog Index lookup of a test (§4.1) — fails
with `NotFound` if the id does not exist or is inactive. -/
def catalogTest (ts : List Test) (tid : Nat) : Except PricingError Test :=
  match (ts.filter (fun x => x.id == tid)).head? with
  | none => .error .NotFound
  | some x => if x.is_active then .ok x else .error .NotFound

/-- Modelled from the spec: one line of a quote — the item, its per-test
routing decisions (a panel's routing is resolved per constituent test,
§4.5), and its priced line. -/
structure QuoteLine where
  item : ItemRef
  routings : List RoutingDecision
  priced : PricedLine
deriving Repr, DecidableEq

/-- Modelled from the spec: a quote error carries the offending item's
identity (§4.5, §7). -/
inductive QuoteError where
  | itemError (item : ItemRef) (e : PricingError)
deriving Repr, DecidableEq

/-- Modelled from the spec: the Order Quote Engine output (§4.5). -/
structure Quote where
  lines : List QuoteLine
  grand_total : ℚ
  currency : String
deriving Repr, DecidableEq

/-- Modelled from the spec: catalog lookup followed by routing resolution
for one constituent test of a quote line (§4.5). -/
def routeTest (s : Snapshot) (lab bid : Nat) (urgent : Bool) (tid : Nat) :
    Except PricingError RoutingDecision :=
  match catalogTest s.tests tid with
  | .error e => .error e
  | .ok test => resolve s.branches s.caps s.avails lab bid test urgent

/-- Modelled from the spec: resolve one line item of a quote — routing per
constituent test (via the Catalog Index) and a single priced line (a panel's
price comes from its own rule, never the sum of constituents; §4.5). -/
def quoteItem (s : Snapshot) (lab bid : Nat) (org : Option String) (t : Int)
    (spend : ℚ) (item : ItemRef) (urgent : Bool) :
    Except PricingError QuoteLine :=
  let testIds : List Nat :=
    match item with
    | .test tid => [tid]
    | .panel pid => (s.panelItems.filter (fun pi => pi.panel_id == pid)).map (·.test_id)
  match testIds.mapM (routeTest s lab bid urgent) with
  | .error e => .error e
  | .ok routings =>
    match price s.prices s.tiers s.corps lab item bid urgent spend org t with
    | .error e => .error e
    | .ok pl => .ok { item := item, routings := routings, priced := pl }

/-- Modelled from the spec: the fail-fast accumulation of `quote` — the
running spend context grows by each priced line's final price; the first
per-item error aborts the whole computation with the offending item
attached (§4.5). -/
def quoteGo (s : Snapshot) (lab bid : Nat) (org : Option String) (t : Int) :
    List (ItemRef × Bool) → ℚ → List QuoteLine →
    Except QuoteError (List QuoteLine)
  | [], _, acc => .ok acc.reverse
  | (item, urg) :: rest, spend, acc =>
    match quoteItem s lab bid org t spend item urg with
    | .error e => .error (.itemError item e)
    | .ok line => quoteGo s lab bid org t rest (spend + line.priced.final_price) (line :: acc)

/-- Modelled from the spec: `quote(tenant, branch, items, corporate_org?,
at_time) -> Quote | fails` (§4.5) — per-item resolution in caller order with
in-quote cumulative spend on top of the caller-supplied figure, atomic
failure, grand total over the priced lines; the operation is absent from
the repository. -/
def quote (s : Snapshot) (lab bid : Nat) (items : List (ItemRef × Bool))
    (org : Option String) (initSpend : ℚ) (t : Int) :
    Except QuoteError Quote :=
  match quoteGo s lab bid org t items initSpend [] with
  | .error e => .error e
  | .ok lines =>
    .ok { lines := lines,
          grand_total := (lines.map (fun l => l.priced.final_price)).sum,
          currency := (lines.head?.map (fun l => l.priced.currency)).getD "GHS" }

/-- The snapshot with other tenants' price rules removed. -/
def restrictPrices (s : Snapshot) (lab : Nat) : Snapshot :=
  ⟨s.prices.filter (fun p => p.laboratory_id == lab), s.tiers, s.corps, s.branches,
   s.caps, s.avails, s.tests, s.panelItems⟩

def rStd : TestPrice := ⟨1, 1, some 1, none, "standard", none, 200, "GHS", 0, 200, some 250, 0, none, true⟩
/-- A second standard rule for the same key as `rStd`, overlapping in time. -/
def rStd2 : TestPrice := ⟨9, 1, some 1, none, "standard", none, 210, "GHS", 0, 210, none, 0, none, true⟩
/-- A branch-specific rule for the same tenant/test, at branch 7. -/
def rBr : TestPrice := ⟨2, 1, some 1, none, "branch_specific", some 7, 160, "GHS", 0, 160, none, 0, none, true⟩
def tier5 : DiscountTier := ⟨1, 1, "t5", 100, 5, none, "single_visit", 0, none, true⟩
def tier10 : DiscountTier := ⟨2, 1, "t10", 500, 10, none, "single_visit", 0, none, true⟩
def tier15 : DiscountTier := ⟨3, 1, "t15", 1000, 15, none, "single_visit", 0, none, true⟩
def corp20 : CorporateDiscount := ⟨1, 1, "Ghana Police Service", "GPS", 20, true, 0, none, true⟩

/-- A tier specifying both a percentage and a fixed amount. -/
def tierBoth : DiscountTier := ⟨4, 1, "bad-both", 100, 5, some 20, "single_visit", 0, none, true⟩
/-- A tier specifying neither a percentage nor a fixed amount. -/
def tierNeither : DiscountTier := ⟨5, 1, "bad-neither", 100, 0, none, "single_visit", 0, none, true⟩

/-- An ill-formed row referencing both a test and a panel. -/
def rBoth : TestPrice := ⟨30, 1, some 1, some 2, "standard", none, 100, "GHS", 0, 100, none, 0, none, true⟩
/-- An ill-formed row: standard scope yet bound to a branch. -/
def rBadBranch : TestPrice := ⟨31, 1, some 1, none, "standard", some 7, 100, "GHS", 0, 100, none, 0, none, true⟩

/-- A test with a 24-hour standard TAT. -/
def testFBC : Test := ⟨1, 24, none, true⟩
/-- Branch B (id 2) of tenant 1. -/
def branchB : Branch := ⟨2, 1, false, true⟩
/-- Branch C (id 3) of tenant 1, the referral target. -/
def branchC : Branch := ⟨3, 1, false, true⟩
/-- Branch B cannot perform the test. -/
def capBno : BranchTestCapability := ⟨2, 1, false, none, true⟩
/-- Branch B refers the test to branch C with 12 extra TAT hours. -/
def avB : BranchTestAvailability := ⟨2, 1, false, some 3, 12, true⟩
/-- A self-referral row: branch B refers the test back to itself. -/
def avBself : BranchTestAvailability := ⟨2, 1, false, some 2, 12, true⟩

end Logos

namespace Logos

/-! ## Helper lemmas -/

theorem ruleMatches_lab {r : TestPrice} {lab : Nat} {item : ItemRef}
    {branch : Option Nat} {t : Int} (h : ruleMatches r lab item branch t = true) :
    r.laboratory_id = lab := by
  unfold ruleMatches at h
  simp only [Bool.and_eq_true, beq_iff_eq] at h
  exact h.1.1.1

theorem activeRuleFor_ok_some {ps : List TestPrice} {lab : Nat} {item : ItemRef}
    {branch : Option Nat} {t : Int} {r : TestPrice}
    (h : activeRuleFor ps lab item branch t = .ok (some r)) :
    r ∈ ps ∧ ruleMatches r lab item branch t = true := by
  unfold activeRuleFor at h
  rcases hf : ps.filter (fun x => ruleMatches x lab item branch t) with _ | ⟨a, _ | ⟨b, tl⟩⟩ <;>
    rw [hf] at h <;> simp at h
  subst h
  have ha : a ∈ ps.filter (fun x => ruleMatches x lab item branch t) := by
    rw [hf]; exact List.mem_singleton_self a
  exact ⟨(List.mem_filter.mp ha).1, (List.mem_filter.mp ha).2⟩

theorem activeRuleFor_filter_lab (ps : List TestPrice) (lab : Nat) (item : ItemRef)
    (branch : Option Nat) (t : Int) :
    activeRuleFor (ps.filter (fun p => p.laboratory_id == lab)) lab item branch t =
      activeRuleFor ps lab item branch t := by
  unfold activeRuleFor
  congr 1
  rw [List.filter_filter]
  apply List.filter_congr
  intro a _
  cases hm : ruleMatches a lab item branch t
  · simp
  · simp [ruleMatches_lab hm]

theorem selectRule_filter_lab (ps : List TestPrice) (lab : Nat) (item : ItemRef)
    (branch : Nat) (t : Int) :
    selectRule (ps.filter (fun p => p.laboratory_id == lab)) lab item branch t =
      selectRule ps lab item branch t := by
  unfold selectRule
  rw [activeRuleFor_filter_lab, activeRuleFor_filter_lab]

theorem price_filter_lab (ps : List TestPrice) (ds : List DiscountTier)
    (cs : List CorporateDiscount) (lab : Nat) (item : ItemRef) (branch : Nat)
    (urgent : Bool) (spend : ℚ) (org : Option String) (t : Int) :
    price (ps.filter (fun p => p.laboratory_id == lab)) ds cs lab item branch urgent spend org t =
      price ps ds cs lab item branch urgent spend org t := by
  unfold price
  rw [selectRule_filter_lab]

theorem quoteItem_filter_lab (s : Snapshot) (lab bid : Nat) (org : Option String)
    (t : Int) (spend : ℚ) (item : ItemRef) (urgent : Bool) :
    quoteItem (restrictPrices s lab) lab bid org t spend item urgent =
      quoteItem s lab bid org t spend item urgent := by
  unfold quoteItem restrictPrices
  simp only []
  rw [price_filter_lab]
  rfl

theorem quoteGo_filter_lab (s : Snapshot) (lab bid : Nat) (org : Option String)
    (t : Int) (items : List (ItemRef × Bool)) (spend : ℚ) (acc : List QuoteLine) :
    quoteGo (restrictPrices s lab) lab bid org t items spend acc =
      quoteGo s lab bid org t items spend acc := by
  induction items generalizing spend acc with
  | nil => rfl
  | cons hd rest ih =>
    unfold quoteGo
    rw [quoteItem_filter_lab]
    cases quoteItem s lab bid org t spend hd.1 hd.2 with
    | error e => rfl
    | ok line => exact ih _ _

theorem quote_filter_lab (s : Snapshot) (lab bid : Nat)
    (items : List (ItemRef × Bool)) (org : Option String) (initSpend : ℚ) (t : Int) :
    quote (restrictPrices s lab) lab bid items org initSpend t =
      quote s lab bid items org initSpend t := by
  unfold quote
  rw [quoteGo_filter_lab]


theorem betterTier_le (l : List DiscountTier) :
    ∀ (b d : DiscountTier), l.foldl betterTier (some b) = some d →
      b.minimum_amount ≤ d.minimum_amount := by
  induction l with
  | nil =>
    intro b d h
    simp only [List.foldl_nil, Option.some.injEq] at h
    exact h ▸ le_refl _
  | cons c lt ih =>
    intro b d h
    simp only [List.foldl_cons] at h
    by_cases hbc : b.minimum_amount < c.minimum_amount
    · have hs : betterTier (some b) c = some c := by simp [betterTier, hbc]
      rw [hs] at h
      exact le_of_lt (lt_of_lt_of_le hbc (ih c d h))
    · have hs : betterTier (some b) c = some b := by simp [betterTier, hbc]
      rw [hs] at h
      exact ih b d h

theorem betterTier_mem (l : List DiscountTier) :
    ∀ (acc : Option DiscountTier) (d : DiscountTier),
      l.foldl betterTier acc = some d → acc = some d ∨ d ∈ l := by
  induction l with
  | nil =>
    intro acc d h
    exact Or.inl h
  | cons c lt ih =>
    intro acc d h
    simp only [List.foldl_cons] at h
    rcases ih (betterTier acc c) d h with hs | hm
    · cases acc with
      | none =>
        simp only [betterTier, Option.some.injEq] at hs
        exact Or.inr (hs ▸ List.mem_cons_self c lt)
      | some b =>
        by_cases hlt : b.minimum_amount < c.minimum_amount
        · simp only [betterTier, hlt, if_true, Option.some.injEq] at hs
          exact Or.inr (hs ▸ List.mem_cons_self c lt)
        · simp only [betterTier, hlt, if_false, Option.some.injEq] at hs
          exact Or.inl (by rw [hs])
    · exact Or.inr (List.mem_cons_of_mem c hm)

theorem betterTier_max (l : List DiscountTier) :
    ∀ (acc : Option DiscountTier) (d : DiscountTier),
      l.foldl betterTier acc = some d →
      ∀ x ∈ l, x.minimum_amount ≤ d.minimum_amount := by
  induction l with
  | nil =>
    intro acc d _ x hx
    simp at hx
  | cons c lt ih =>
    intro acc d h x hx
    simp only [List.foldl_cons] at h
    rcases List.mem_cons.mp hx with rfl | hm
    · have hstep : ∃ b, betterTier acc x = some b ∧ x.minimum_amount ≤ b.minimum_amount := by
        cases acc with
        | none => exact ⟨x, rfl, le_refl _⟩
        | some b0 =>
          by_cases hlt : b0.minimum_amount < x.minimum_amount
          · exact ⟨x, by simp [betterTier, hlt], le_refl _⟩
          · exact ⟨b0, by simp [betterTier, hlt], le_of_not_lt hlt⟩
      obtain ⟨b, hb, hxb⟩ := hstep
      rw [hb] at h
      exact le_trans hxb (betterTier_le lt b d h)
    · exact ih _ d h x hm

/-- Discount entries recorded by the volume-tier step of `price()`. -/
def isVolumeKind (a : AppliedDiscount) : Bool :=
  a.kind == "volume_tier" || a.kind == "volume_tier_fixed"

theorem applyTier_volume_count (ds : List DiscountTier) (lab : Nat) (spend : ℚ)
    (t : Int) (p p1 : ℚ) (d1 : List AppliedDiscount)
    (h : applyTier ds lab spend t p = .ok (p1, d1)) :
    d1.countP isVolumeKind ≤ 1 := by
  unfold applyTier at h
  split at h
  · simp only [Except.ok.injEq, Prod.mk.injEq] at h
    rw [← h.2]
    simp
  · split at h
    · simp at h
    · split at h
      · simp only [Except.ok.injEq, Prod.mk.injEq] at h
        rw [← h.2]
        simp [List.countP, List.countP.go, isVolumeKind]
      · simp only [Except.ok.injEq, Prod.mk.injEq] at h
        rw [← h.2]
        simp [List.countP, List.countP.go, isVolumeKind]

theorem applyCorporate_volume_count (cs : List CorporateDiscount) (lab : Nat)
    (org : Option String) (t : Int) (p : ℚ) :
    ((applyCorporate cs lab org t p).2).countP isVolumeKind = 0 := by
  unfold applyCorporate
  split
  · simp
  · split
    · simp
    · split
      · simp [List.countP, List.countP.go, isVolumeKind]
      · simp

theorem insertPrice_wf {ps : List TestPrice} {r : TestPrice} {ps2 : List TestPrice}
    (hwf : pricesWF ps = true) (h : insertPrice ps r = .ok ps2) : pricesWF ps2 = true := by
  unfold insertPrice at h
  split at h
  · simp at h
  · split at h
    · simp at h
    · rename_i h1 h2
      simp only [Bool.not_eq_true', Bool.not_eq_false] at h1 h2
      simp only [Except.ok.injEq] at h
      rw [← h]
      unfold pricesWF at hwf ⊢
      simp only [List.all_cons, h1, h2, Bool.and_self, Bool.true_and]
      exact hwf

theorem check_test_or_panel_spec {r : TestPrice} (h : check_test_or_panel r = true) :
    ((∃ i, r.test_id = some i) ∧ r.panel_id = none) ∨
    (r.test_id = none ∧ ∃ j, r.panel_id = some j) := by
  unfold check_test_or_panel at h
  rcases hT : r.test_id with _ | i <;> rcases hP : r.panel_id with _ | j <;>
    rw [hT, hP] at h <;> simp at h
  · exact Or.inr ⟨rfl, j, rfl⟩
  · exact Or.inl ⟨⟨i, rfl⟩, rfl⟩

theorem pricesWF_mem {ps : List TestPrice} {r : TestPrice}
    (hwf : pricesWF ps = true) (hm : r ∈ ps) :
    check_test_or_panel r = true ∧ check_branch_price_consistency r = true := by
  unfold pricesWF at hwf
  have := List.all_eq_true.mp hwf r hm
  simpa [Bool.and_eq_true] using this

theorem quoteGo_total_or_error (s : Snapshot) (lab bid : Nat)
    (org : Option String) (t : Int) :
    ∀ (items : List (ItemRef × Bool)) (spend : ℚ) (acc : List QuoteLine),
      (∃ lines, quoteGo s lab bid org t items spend acc = .ok lines ∧
        lines.length = acc.length + items.length) ∨
      (∃ item e, quoteGo s lab bid org t items spend acc = .error (.itemError item e) ∧
        item ∈ items.map Prod.fst) := by
  intro items
  induction items with
  | nil =>
    intro spend acc
    exact Or.inl ⟨acc.reverse, rfl, by simp⟩
  | cons hd rest ih =>
    obtain ⟨item, urg⟩ := hd
    intro spend acc
    rcases hq : quoteItem s lab bid org t spend item urg with e | line
    · refine Or.inr ⟨item, e, ?_, by simp⟩
      simp only [quoteGo]
      rw [hq]
    · rcases ih (spend + line.priced.final_price) (line :: acc) with
        ⟨lines, hok, hlen⟩ | ⟨it, e, herr, hmem⟩
      · refine Or.inl ⟨lines, ?_, ?_⟩
        · simp only [quoteGo]
          rw [hq]
          exact hok
        · rw [hlen]
          simp only [List.length_cons]
          omega
      · refine Or.inr ⟨it, e, ?_, ?_⟩
        · simp only [quoteGo]
          rw [hq]
          exact herr
        · simp only [List.map_cons]
          exact List.mem_cons_of_mem _ hmem

/-! ## Claim theorems -/

/-- C1: Tenant isolation of pricing — a price rule returned by
`activeRuleFor` always belongs to the queried tenant, and `activeRuleFor`,
`price` and `quote` are unchanged when every other tenant's price rules are
removed from the store; hence a rule stored under tenant A's
`laboratory_id` is never selected or returned when resolving for tenant B,
even with identical item/branch ids. -/
theorem tenant_isolation_pricing (ps : List TestPrice) (ds : List DiscountTier)
    (cs : List CorporateDiscount) (s : Snapshot) (lab bid : Nat) (item : ItemRef)
    (branch : Option Nat) (urgent : Bool) (spend initSpend : ℚ) (org : Option String)
    (t : Int) (items : List (ItemRef × Bool)) :
    (∀ r, activeRuleFor ps lab item branch t = .ok (some r) → r.laboratory_id = lab) ∧
    activeRuleFor (ps.filter (fun p => p.laboratory_id == lab)) lab item branch t =
      activeRuleFor ps lab item branch t ∧
    price (ps.filter (fun p => p.laboratory_id == lab)) ds cs lab item bid urgent spend org t =
      price ps ds cs lab item bid urgent spend org t ∧
    quote (restrictPrices s lab) lab bid items org initSpend t =
      quote s lab bid items org initSpend t :=
  ⟨fun _ h => ruleMatches_lab (activeRuleFor_ok_some h).2,
   activeRuleFor_filter_lab ps lab item branch t,
   price_filter_lab ps ds cs lab item bid urgent spend org t,
   quote_filter_lab s lab bid items org initSpend t⟩

theorem tenant_isolation_pricing_witness :
    activeRuleFor [rStd] 1 (.test 1) none 10 = .ok (some rStd) ∧
    rStd.laboratory_id = 1 ∧
    activeRuleFor [rStd] 2 (.test 1) none 10 = .ok none := by
  refine ⟨?_, ?_, ?_⟩
  · norm_num [activeRuleFor, ruleMatches, matchesItem, priceActiveAt, rStd]
  · exact (tenant_isolation_pricing [rStd] [] [] ⟨[], [], [], [], [], [], [], []⟩ 1 0
      (.test 1) none false 0 0 none 10 []).1 rStd
      (by norm_num [activeRuleFor, ruleMatches, matchesItem, priceActiveAt, rStd])
  · norm_num [activeRuleFor, ruleMatches, matchesItem, priceActiveAt, rStd]

/-- C3: Temporal uniqueness of price rules — if two distinct stored rules
match the same (tenant, item, scope[, branch]) key at the same instant,
`activeRuleFor` fails with `AmbiguousPriceRule` rather than picking one. -/
theorem ambiguous_price_rule (ps : List TestPrice) (lab : Nat) (item : ItemRef)
    (branch : Option Nat) (t : Int) (r1 r2 : TestPrice)
    (h1 : r1 ∈ ps) (h2 : r2 ∈ ps) (hne : r1 ≠ r2)
    (hm1 : ruleMatches r1 lab item branch t = true)
    (hm2 : ruleMatches r2 lab item branch t = true) :
    activeRuleFor ps lab item branch t = .error .AmbiguousPriceRule := by
  have m1 : r1 ∈ ps.filter (fun x => ruleMatches x lab item branch t) :=
    List.mem_filter.mpr ⟨h1, hm1⟩
  have m2 : r2 ∈ ps.filter (fun x => ruleMatches x lab item branch t) :=
    List.mem_filter.mpr ⟨h2, hm2⟩
  unfold activeRuleFor
  rcases hf : ps.filter (fun x => ruleMatches x lab item branch t) with _ | ⟨a, _ | ⟨b, tl⟩⟩
  · rw [hf] at m1; simp at m1
  · rw [hf] at m1 m2
    simp at m1 m2
    exact absurd (m1.trans m2.symm) hne
  · rfl

theorem ambiguous_price_rule_witness :
    rStd ∈ [rStd, rStd2] ∧ rStd2 ∈ [rStd, rStd2] ∧ rStd ≠ rStd2 ∧
    ruleMatches rStd 1 (.test 1) none 10 = true ∧
    ruleMatches rStd2 1 (.test 1) none 10 = true ∧
    activeRuleFor [rStd, rStd2] 1 (.test 1) none 10 = .error .AmbiguousPriceRule := by
  refine ⟨by simp, by simp, by norm_num [rStd, rStd2], ?_, ?_, ?_⟩
  · norm_num [ruleMatches, matchesItem, priceActiveAt, rStd]
  · norm_num [ruleMatches, matchesItem, priceActiveAt, rStd2]
  · exact ambiguous_price_rule [rStd, rStd2] 1 (.test 1) none 10 rStd rStd2
      (by simp) (by simp) (by norm_num [rStd, rStd2])
      (by norm_num [ruleMatches, matchesItem, priceActiveAt, rStd])
      (by norm_num [ruleMatches, matchesItem, priceActiveAt, rStd2])

/-- C4: Base-price precedence — `price()` (through its base selection
`selectRule`) uses the branch-specific active rule when one exists, falls
back to the standard active rule otherwise, and fails with `NoPriceDefined`
when neither exists, never returning a zero/free price. -/
theorem base_price_precedence (ps : List TestPrice) (ds : List DiscountTier)
    (cs : List CorporateDiscount) (lab : Nat) (item : ItemRef) (branch : Nat)
    (urgent : Bool) (spend : ℚ) (org : Option String) (t : Int) :
    (∀ rb, activeRuleFor ps lab item (some branch) t = .ok (some rb) →
        selectRule ps lab item branch t = .ok rb) ∧
    (activeRuleFor ps lab item (some branch) t = .ok none →
      ∀ rs, activeRuleFor ps lab item none t = .ok (some rs) →
        selectRule ps lab item branch t = .ok rs) ∧
    (activeRuleFor ps lab item (some branch) t = .ok none →
      activeRuleFor ps lab item none t = .ok none →
        price ps ds cs lab item branch urgent spend org t = .error .NoPriceDefined) := by
  refine ⟨fun rb hb => ?_, fun hb rs hs => ?_, fun hb hs => ?_⟩
  · unfold selectRule
    rw [hb]
  · unfold selectRule
    rw [hb, hs]
  · unfold price selectRule
    rw [hb, hs]

theorem base_price_precedence_witness :
    activeRuleFor [rBr, rStd] 1 (.test 1) (some 7) 10 = .ok (some rBr) ∧
    selectRule [rBr, rStd] 1 (.test 1) 7 10 = .ok rBr ∧
    activeRuleFor [rStd] 1 (.test 1) (some 7) 10 = .ok none ∧
    selectRule [rStd] 1 (.test 1) 7 10 = .ok rStd ∧
    price [] [] [] 1 (.test 1) 7 false 0 none 10 = .error .NoPriceDefined := by
  have hb : activeRuleFor [rBr, rStd] 1 (.test 1) (some 7) 10 = .ok (some rBr) := by
    norm_num [activeRuleFor, ruleMatches, matchesItem, priceActiveAt, rBr, rStd]
  have hb2 : activeRuleFor [rStd] 1 (.test 1) (some 7) 10 = .ok none := by
    norm_num [activeRuleFor, ruleMatches, matchesItem, priceActiveAt, rStd]
  have hs2 : activeRuleFor [rStd] 1 (.test 1) none 10 = .ok (some rStd) := by
    norm_num [activeRuleFor, ruleMatches, matchesItem, priceActiveAt, rStd]
  refine ⟨hb, (base_price_precedence [rBr, rStd] [] [] 1 (.test 1) 7 false 0 none 10).1 rBr hb,
    hb2, (base_price_precedence [rStd] [] [] 1 (.test 1) 7 false 0 none 10).2.1 hb2 rStd hs2,
    (base_price_precedence [] [] [] 1 (.test 1) 7 false 0 none 10).2.2 rfl rfl⟩

/-- C2: Discount stacking order — whenever a rule with an urgent price, a
qualifying percentage tier and an applicable corporate discount are all
present, `price()` composes them in the fixed order base, urgent
replacement, volume tier, then corporate percentage applied to the
post-tier result, multiplicatively; the audit list records the two
discounts in that order. -/
theorem discount_stacking_order (ps : List TestPrice) (ds : List DiscountTier)
    (cs : List CorporateDiscount) (lab : Nat) (item : ItemRef) (branch : Nat)
    (spend : ℚ) (o : String) (t : Int) (r : TestPrice) (u : ℚ)
    (d : DiscountTier) (c : CorporateDiscount)
    (hr : selectRule ps lab item branch t = .ok r)
    (hu : r.urgent_price = some u)
    (hd : bestTier ds lab spend t = some d)
    (hdp : d.discount_percentage ≠ 0)
    (hdf : d.fixed_discount_amount = none)
    (hc : corporateDiscountFor cs lab o t = some c)
    (hca : c.applies_to_all_tests = true) :
    price ps ds cs lab item branch true spend (some o) t =
      .ok ⟨u, [⟨"volume_tier", d.discount_percentage⟩, ⟨"corporate", c.discount_percentage⟩],
           round2 (u * ((100 - d.discount_percentage) / 100) * ((100 - c.discount_percentage) / 100)),
           r.currency⟩ := by
  have hv : validateTier d = .ok d := by
    unfold validateTier
    rw [hdf]
    simp [hdp]
  have ht : applyTier ds lab spend t u =
      .ok (u * ((100 - d.discount_percentage) / 100), [⟨"volume_tier", d.discount_percentage⟩]) := by
    unfold applyTier
    rw [hd]
    simp only [hv, hdf]
  have hco : applyCorporate cs lab (some o) t (u * ((100 - d.discount_percentage) / 100)) =
      (u * ((100 - d.discount_percentage) / 100) * ((100 - c.discount_percentage) / 100),
       [⟨"corporate", c.discount_percentage⟩]) := by
    unfold applyCorporate
    simp only [hc, hca, if_true]
  have hbase : baseAmount r true = u := by
    unfold baseAmount
    simp [hu]
  unfold price
  rw [hr]
  simp only [hbase, ht, hco]
  rfl

theorem discount_stacking_order_witness :
    price [rStd] [tier10] [corp20] 1 (.test 1) 7 true 600 (some "GPS") 10 =
      .ok ⟨250, [⟨"volume_tier", 10⟩, ⟨"corporate", 20⟩], 180, "GHS"⟩ := by
  have h := discount_stacking_order [rStd] [tier10] [corp20] 1 (.test 1) 7 600 "GPS" 10
    rStd 250 tier10 corp20
    (by norm_num [selectRule, activeRuleFor, ruleMatches, matchesItem, priceActiveAt, rStd])
    rfl
    (by norm_num [bestTier, betterTier, tierQualifies, tier10])
    (by norm_num [tier10])
    rfl
    (by norm_num [corporateDiscountFor, corp20])
    rfl
  rw [h]
  norm_num [round2, rStd, tier10, corp20]

/-- C7: Best-tier selection — any tier chosen by `bestTier` qualifies
(tenant, activity window, `minimum_amount` at most the cumulative spend)
and has the highest `minimum_amount` among the tenant's qualifying tiers;
and a successful `price()` records at most one volume-tier discount per
line. -/
theorem best_tier_selection (ps : List TestPrice) (ds : List DiscountTier)
    (cs : List CorporateDiscount) (lab : Nat) (item : ItemRef) (branch : Nat)
    (urgent : Bool) (spend : ℚ) (org : Option String) (t : Int) :
    (∀ d, bestTier ds lab spend t = some d →
        tierQualifies d lab spend t = true ∧ d ∈ ds ∧
        ∀ x ∈ ds, tierQualifies x lab spend t = true →
          x.minimum_amount ≤ d.minimum_amount) ∧
    (∀ line, price ps ds cs lab item branch urgent spend org t = .ok line →
        line.applied_discounts.countP isVolumeKind ≤ 1) := by
  constructor
  · intro d hd
    unfold bestTier at hd
    rcases betterTier_mem _ none d hd with h | h
    · simp at h
    · refine ⟨(List.mem_filter.mp h).2, (List.mem_filter.mp h).1, fun x hx hq => ?_⟩
      exact betterTier_max _ none d hd x (List.mem_filter.mpr ⟨hx, hq⟩)
  · intro line h
    unfold price at h
    split at h
    · simp at h
    · simp only [] at h
      split at h
      · simp at h
      · rename_i p1 d1 hat
        rcases hac : applyCorporate cs lab org t p1 with ⟨p2, d2⟩
        rw [hac] at h
        simp only [Except.ok.injEq] at h
        rw [← h]
        have hd2 := applyCorporate_volume_count cs lab org t p1
        rw [hac] at hd2
        simp only [List.countP_append, hd2, Nat.add_zero]
        exact applyTier_volume_count ds lab spend t _ p1 d1 hat

theorem best_tier_selection_witness :
    bestTier [tier5, tier10, tier15] 1 600 10 = some tier10 ∧
    tierQualifies tier10 1 600 10 = true ∧
    tier5.minimum_amount ≤ tier10.minimum_amount ∧
    tier10.discount_percentage = 10 := by
  have hb : bestTier [tier5, tier10, tier15] 1 600 10 = some tier10 := by
    norm_num [bestTier, betterTier, tierQualifies, tier5, tier10, tier15]
  have h := (best_tier_selection [] [tier5, tier10, tier15] [] 1 (.test 1) 7 false 600
    none 10).1 tier10 hb
  exact ⟨hb, h.1, h.2.2 tier5 (by simp) (by norm_num [tierQualifies, tier5]),
    by norm_num [tier10]⟩

/-- C6: Referral routing and TAT composition — when the branch cannot
perform the test locally and its availability row names a referral target,
`resolve` routes to the target with effective TAT equal to the test's
standard TAT plus the row's `additional_tat_hours`, provided the target is
a distinct active branch of the same tenant that can perform the test; it
fails with `InvalidReferral` when the target is the referring branch itself
or is not an active branch of the tenant. -/
theorem referral_routing_tat (bs : List Branch) (caps : List BranchTestCapability)
    (avs : List BranchTestAvailability) (lab bid : Nat) (test : Test)
    (urgent : Bool) (av : BranchTestAvailability) (tgt : Nat)
    (hcl : cannotPerformLocally bs caps bid test.id = true)
    (hav : availabilityFor avs bid test.id = some av)
    (hrt : av.refer_to_branch_id = some tgt) :
    (tgt ≠ bid → isActiveBranch bs lab tgt = true →
      cannotPerformLocally bs caps tgt test.id = false →
      resolve bs caps avs lab bid test urgent =
        .ok ⟨tgt, test.turnaround_time_hours + av.additional_tat_hours, true⟩) ∧
    (tgt = bid → resolve bs caps avs lab bid test urgent = .error .InvalidReferral) ∧
    (tgt ≠ bid → isActiveBranch bs lab tgt = false →
      resolve bs caps avs lab bid test urgent = .error .InvalidReferral) := by
  refine ⟨fun hne hact hcap => ?_, fun heq => ?_, fun hne hact => ?_⟩
  · simp [resolve, hcl, hav, hrt, hne, hact, hcap]
  · subst heq
    simp [resolve, hcl, hav, hrt]
  · simp [resolve, hcl, hav, hrt, hne, hact]

theorem referral_routing_tat_witness :
    cannotPerformLocally [branchB, branchC] [capBno] 2 testFBC.id = true ∧
    availabilityFor [avB] 2 testFBC.id = some avB ∧
    resolve [branchB, branchC] [capBno] [avB] 1 2 testFBC false =
      .ok ⟨3, 36, true⟩ ∧
    resolve [branchB, branchC] [capBno] [avBself] 1 2 testFBC false =
      .error .InvalidReferral := by
  have h1 := (referral_routing_tat [branchB, branchC] [capBno] [avB] 1 2 testFBC false
    avB 3 (by decide) (by decide) (by decide)).1
    (by decide) (by decide) (by decide)
  have h2 := (referral_routing_tat [branchB, branchC] [capBno] [avBself] 1 2 testFBC false
    avBself 2 (by decide) (by decide) (by decide)).2.1 rfl
  refine ⟨by decide, by decide, ?_, h2⟩
  rw [h1]
  decide

/-- C8: Price-rule item exclusivity — a row violating `check_test_or_panel`
is rejected on insert, inserts preserve store well-formedness, and every
rule observed through `activeRuleFor` on a well-formed store references
exactly one of a test or a panel (never both, never neither). -/
theorem price_rule_item_exclusivity (ps ps2 : List TestPrice) (r0 : TestPrice)
    (lab : Nat) (item : ItemRef) (branch : Option Nat) (t : Int) :
    (check_test_or_panel r0 = false → insertPrice ps r0 = .error "check_test_or_panel") ∧
    (pricesWF ps = true → insertPrice ps r0 = .ok ps2 → pricesWF ps2 = true) ∧
    (pricesWF ps = true → ∀ r, activeRuleFor ps lab item branch t = .ok (some r) →
      ((∃ i, r.test_id = some i) ∧ r.panel_id = none) ∨
      (r.test_id = none ∧ ∃ j, r.panel_id = some j)) := by
  refine ⟨fun hc => ?_, fun hwf h => insertPrice_wf hwf h, fun hwf r h => ?_⟩
  · unfold insertPrice
    rw [hc]
    rfl
  · exact check_test_or_panel_spec
      (pricesWF_mem hwf (activeRuleFor_ok_some h).1).1

theorem price_rule_item_exclusivity_witness :
    check_test_or_panel rBoth = false ∧
    insertPrice [] rBoth = .error "check_test_or_panel" ∧
    pricesWF [rStd] = true ∧
    (((∃ i, rStd.test_id = some i) ∧ rStd.panel_id = none) ∨
      (rStd.test_id = none ∧ ∃ j, rStd.panel_id = some j)) := by
  refine ⟨by decide, ?_, by decide, ?_⟩
  · exact (price_rule_item_exclusivity [] [] rBoth 1 (.test 1) none 10).1 (by decide)
  · exact (price_rule_item_exclusivity [rStd] [] rBoth 1 (.test 1) none 10).2.2 (by decide)
      rStd (by norm_num [activeRuleFor, ruleMatches, matchesItem, priceActiveAt, rStd])

/-- C10: Scope/branch consistency — a stored rule satisfying
`check_branch_price_consistency` is standard exactly when it carries no
branch id and branch-specific exactly when it does, so the scope is
recoverable from the branch field alone; violating rows are rejected on
insert and inserts preserve the invariant. -/
theorem scope_branch_consistency (ps ps2 : List TestPrice) (r0 : TestPrice) :
    (∀ r : TestPrice, check_branch_price_consistency r = true →
      (r.price_type = "standard" ↔ r.branch_id = none) ∧
      (r.price_type = "branch_specific" ↔ r.branch_id.isSome = true) ∧
      r.price_type = (if r.branch_id.isSome then "branch_specific" else "standard")) ∧
    (check_test_or_panel r0 = true → check_branch_price_consistency r0 = false →
      insertPrice ps r0 = .error "check_branch_price_consistency") ∧
    (pricesWF ps = true → insertPrice ps r0 = .ok ps2 → pricesWF ps2 = true) := by
  refine ⟨fun r h => ?_, fun h1 h2 => ?_, fun hwf h => insertPrice_wf hwf h⟩
  · unfold check_branch_price_consistency at h
    simp only [Bool.or_eq_true, Bool.and_eq_true, beq_iff_eq,
      Option.isNone_iff_eq_none, Option.isSome_iff_exists] at h
    rcases h with ⟨h1, h2⟩ | ⟨h1, ⟨b, h2⟩⟩
    · refine ⟨by simp [h1, h2], ?_, by simp [h1, h2]⟩
      rw [h1, h2]
      simp
    · refine ⟨?_, by simp [h1, h2], by simp [h1, h2]⟩
      rw [h1, h2]
      simp
  · unfold insertPrice
    rw [h1, h2]
    rfl

theorem scope_branch_consistency_witness :
    check_branch_price_consistency rStd = true ∧
    (rStd.price_type = "standard" ↔ rStd.branch_id = none) ∧
    rBr.price_type = (if rBr.branch_id.isSome then "branch_specific" else "standard") ∧
    insertPrice [] rBadBranch = .error "check_branch_price_consistency" := by
  refine ⟨by decide, ?_, ?_, ?_⟩
  · exact ((scope_branch_consistency [] [] rStd).1 rStd (by decide)).1
  · exact ((scope_branch_consistency [] [] rBr).1 rBr (by decide)).2.2
  · exact (scope_branch_consistency [] [] rBadBranch).2.1 (by decide) (by decide)

/-- C9: Discount-configuration validation — `validateTier` accepts a tier
exactly when it specifies exactly one of a non-zero percentage or a fixed
amount; a tier specifying both, or neither, is rejected with
`InvalidDiscountConfiguration`, and a rejected tier selected for a line
makes `price()` fail with that error rather than silently applying or
defaulting it.  (For `CorporateDiscount` the source schema has no
fixed-amount column, so the "both" state is unrepresentable there.) -/
theorem discount_configuration_validation (ps : List TestPrice)
    (ds : List DiscountTier) (cs : List CorporateDiscount) (lab : Nat)
    (item : ItemRef) (branch : Nat) (urgent : Bool) (spend : ℚ)
    (org : Option String) (t : Int) (d : DiscountTier) (r : TestPrice)
    (e : PricingError) :
    (∀ d2, validateTier d = .ok d2 → d2 = d ∧
      ((d.discount_percentage ≠ 0 ∧ d.fixed_discount_amount = none) ∨
       (d.discount_percentage = 0 ∧ ∃ f, d.fixed_discount_amount = some f))) ∧
    (d.discount_percentage ≠ 0 → d.fixed_discount_amount.isSome = true →
      validateTier d = .error .InvalidDiscountConfiguration) ∧
    (d.discount_percentage = 0 → d.fixed_discount_amount = none →
      validateTier d = .error .InvalidDiscountConfiguration) ∧
    (selectRule ps lab item branch t = .ok r → bestTier ds lab spend t = some d →
      validateTier d = .error e →
      price ps ds cs lab item branch urgent spend org t = .error e) := by
  refine ⟨fun d2 h => ?_, fun hp hf => ?_, fun hp hf => ?_, fun hsel hbest hval => ?_⟩
  · unfold validateTier at h
    split at h
    · simp at h
    · split at h
      · simp at h
      · rename_i hb hn
        simp only [Except.ok.injEq] at h
        refine ⟨h.symm, ?_⟩
        by_cases hp : d.discount_percentage = 0
        · refine Or.inr ⟨hp, ?_⟩
          rcases hs : d.fixed_discount_amount with _ | f
          · exact absurd ⟨hp, by rw [hs]; rfl⟩ hn
          · exact ⟨f, rfl⟩
        · refine Or.inl ⟨hp, ?_⟩
          rcases hs : d.fixed_discount_amount with _ | f
          · rfl
          · exact absurd ⟨hp, by rw [hs]; rfl⟩ hb
  · unfold validateTier
    rw [if_pos ⟨hp, hf⟩]
  · unfold validateTier
    rw [if_neg (fun hb => hb.1 hp), if_pos ⟨hp, by rw [hf]; rfl⟩]
  · have ht : applyTier ds lab spend t (baseAmount r urgent) = .error e := by
      unfold applyTier
      rw [hbest]
      simp only [hval]
    unfold price
    rw [hsel]
    simp only [ht]

theorem discount_configuration_validation_witness :
    validateTier tierBoth = .error .InvalidDiscountConfiguration ∧
    validateTier tierNeither = .error .InvalidDiscountConfiguration ∧
    validateTier tier10 = .ok tier10 ∧
    price [rStd] [tierBoth] [] 1 (.test 1) 7 false 600 none 10 =
      .error .InvalidDiscountConfiguration := by
  have hboth := (discount_configuration_validation [rStd] [tierBoth] [] 1 (.test 1) 7
    false 600 none 10 tierBoth rStd .InvalidDiscountConfiguration).2.1
    (by norm_num [tierBoth]) rfl
  refine ⟨hboth, ?_, by norm_num [validateTier, tier10], ?_⟩
  · exact (discount_configuration_validation [rStd] [tierNeither] [] 1 (.test 1) 7
      false 600 none 10 tierNeither rStd .InvalidDiscountConfiguration).2.2.1
      (by norm_num [tierNeither]) rfl
  · exact (discount_configuration_validation [rStd] [tierBoth] [] 1 (.test 1) 7
      false 600 none 10 tierBoth rStd .InvalidDiscountConfiguration).2.2.2
      (by norm_num [selectRule, activeRuleFor, ruleMatches, matchesItem, priceActiveAt, rStd])
      (by norm_num [bestTier, betterTier, tierQualifies, tierBoth])
      hboth

/-- C5: Quote atomicity — every `quote` invocation either succeeds with one
line per requested item, or fails as a whole with an error naming one of
the requested items; no partial quote is ever returned. -/
theorem quote_atomicity (s : Snapshot) (lab bid : Nat)
    (items : List (ItemRef × Bool)) (org : Option String) (initSpend : ℚ)
    (t : Int) :
    (∃ q, quote s lab bid items org initSpend t = .ok q ∧
      q.lines.length = items.length) ∨
    (∃ item e, quote s lab bid items org initSpend t = .error (.itemError item e) ∧
      item ∈ items.map Prod.fst) := by
  rcases quoteGo_total_or_error s lab bid org t items initSpend [] with
    ⟨lines, hok, hlen⟩ | ⟨it, e, herr, hmem⟩
  · refine Or.inl ⟨⟨lines, (lines.map (fun l => l.priced.final_price)).sum,
      (lines.head?.map (fun l => l.priced.currency)).getD "GHS"⟩, ?_, ?_⟩
    · unfold quote
      rw [hok]
    · simpa using hlen
  · refine Or.inr ⟨it, e, ?_, hmem⟩
    unfold quote
    rw [herr]

end Logos
